import Mathlib

/-!
Shallow embedding of the micgain-manager scheduler core.

Sources embedded:
* `internal/config/config.go` — `Config`, defaults, `FileStore.Load`/`Save`;
* `internal/config/validate.go` — `Normalize`;
* `internal/domain/entity.go` — the hexagonal-variant `domain.Config` and its
  `Validate`;
* `internal/core` (`domain.go` plus the types file) — `State`, `Event`,
  `Effect`, `HandleEvent` with its three handlers, and `HandleEffectResult`;
* `internal/core/manager.go` — the state-mutating part of
  `Manager.triggerApply`;
* the `repository.FileRepository.Load` defaulting.

Go `time.Time` and `time.Duration` are both modelled as `Int` nanosecond
counts: the zero `time.Time` (`IsZero`) is `0`, `After` is `<` on the
underlying instants, `Add` is `+`.  Errors become inductive enumerations or
`Option String` where the Go code only threads `error` values through.
-/

namespace MicGain

/-- Instants, as nanoseconds: `time.Time` with `IsZero ↔ = 0`, `After ↔ >`. -/
abbrev Time := Int

/-- Durations in nanoseconds, as `time.Duration` (an `int64`). -/
abbrev Duration := Int

/-- One second in nanoseconds (`time.Second`). -/
def secondNS : Duration := 1000000000

/-- `config.Config`: the persisted preferences record (config/config.go). -/
structure Config where
  TargetVolume : Int
  Interval : Duration
  Enabled : Bool
  LastApplied : Time
  LastApplyStatus : String
  LastError : String
deriving Repr, DecidableEq

/-- `config.DefaultInterval` (90 seconds). -/
def DefaultInterval : Duration := 90 * secondNS

/-- `config.DefaultVolume` (50). -/
def DefaultVolume : Int := 50

/-- `config.DefaultConfig()`. -/
def DefaultConfig : Config :=
  { TargetVolume := DefaultVolume
    Interval := DefaultInterval
    Enabled := true
    LastApplied := 0
    LastApplyStatus := "never"
    LastError := "" }

/-- The two failure cases of `config.Normalize` (validate.go). -/
inductive NormalizeErr where
  | outOfRangeValue
  | intervalTooShort
deriving Repr, DecidableEq

/-- `config.Normalize` (validate.go): rejects `TargetVolume` outside `[0,100]`
and `Interval` below five seconds, otherwise returns the config unchanged. -/
def Normalize (cfg : Config) : Except NormalizeErr Config :=
  if cfg.TargetVolume < 0 ∨ cfg.TargetVolume > 100 then
    .error .outOfRangeValue
  else if cfg.Interval < 5 * secondNS then
    .error .intervalTooShort
  else
    .ok cfg

/-- `domain.Config` (internal/domain/entity.go), the hexagonal variant. -/
structure DConfig where
  TargetVolume : Int
  Interval : Duration
  Enabled : Bool
deriving Repr, DecidableEq

/-- The error values of internal/domain/error.go used by `Config.Validate`. -/
inductive DomainEntityErr where
  | ErrInvalidVolume
  | ErrInvalidInterval
deriving Repr, DecidableEq

/-- `domain.Config.Validate` (entity.go): volume in `[0,100]`, interval at
least one second. -/
def DConfig.Validate (c : DConfig) : Option DomainEntityErr :=
  if c.TargetVolume < 0 ∨ c.TargetVolume > 100 then
    some .ErrInvalidVolume
  else if c.Interval < secondNS then
    some .ErrInvalidInterval
  else
    none

/-- `core.Effect`: the tagged side-effect description produced by the pure
core.  `applyVolume` is `EffectApplyVolume` carrying `Volume`; `saveConfig`
is `EffectSaveConfig` carrying `Config`. -/
inductive Effect where
  | applyVolume (volume : Int)
  | saveConfig (cfg : Config)
deriving Repr, DecidableEq

/-- `core.State`: config plus scheduling fields (`NextRun`, `RunningSince`). -/
structure State where
  Config : MicGain.Config
  NextRun : Time
  RunningSince : Option Time
deriving Repr, DecidableEq

/-- `core.UpdateConfigData`. -/
structure UpdateConfigData where
  Config : MicGain.Config
  ApplyNow : Bool
deriving Repr, DecidableEq

/-- `core.ApplyOnceData`: a negative volume means "use the configured one". -/
structure ApplyOnceData where
  Volume : Int
deriving Repr, DecidableEq

/-- `core.EventType`; `other` stands for any string besides the three known
tags. -/
inductive EventType where
  | tick
  | updateConfig
  | applyOnce
  | other (s : String)
deriving Repr, DecidableEq

/-- The dynamic payload of `core.Event.Data` (an `interface{}` in Go): it may
be absent, an `UpdateConfigData`, an `ApplyOnceData`, or some unrelated
value. -/
inductive EventData where
  | nodata
  | update (d : UpdateConfigData)
  | once (d : ApplyOnceData)
  | unrelated
deriving Repr, DecidableEq

/-- `core.Event`: a type tag plus a dynamic payload. -/
structure Event where
  type : EventType
  data : EventData
deriving Repr, DecidableEq

/-- The `error` results of `core.HandleEvent` and its handlers. -/
inductive DomainErr where
  | invalidUpdateConfigData
  | invalidApplyOnceData
  | unknownEventType (s : String)
  | validation (e : NormalizeErr)
deriving Repr, DecidableEq

/-- The optimistic config update both `handleTick` and `handleApplyOnce`
perform before dispatching the apply effect: stamp `LastApplied := now`,
status `"ok"`, clear the error. -/
def optimisticConfig (cfg : Config) (now : Time) : Config :=
  { cfg with LastApplied := now, LastApplyStatus := "ok", LastError := "" }

/-- `core.handleTick` (domain.go).  Disabled: clear `NextRun` and
`RunningSince`, no effects.  Enabled and not yet due (`¬ now.After NextRun`
and `NextRun` nonzero): unchanged, no effects.  Otherwise emit
`ApplyVolume(TargetVolume)` then `SaveConfig` of the optimistically updated
config, reschedule `NextRun := now + Interval`, mark running. -/
def handleTick (state : State) (now : Time) :
    State × List Effect × Option DomainErr :=
  if state.Config.Enabled = false then
    ({ state with NextRun := 0, RunningSince := none }, [], none)
  else if (¬ (now > state.NextRun)) ∧ state.NextRun ≠ 0 then
    (state, [], none)
  else
    let newConfig := optimisticConfig state.Config now
    (⟨newConfig, now + newConfig.Interval, some now⟩,
     [Effect.applyVolume state.Config.TargetVolume,
      Effect.saveConfig newConfig],
     none)

/-- `core.handleUpdateConfig` (domain.go): normalize, propagate failure with
state untouched; on success store the config, emit `SaveConfig` (plus
`ApplyVolume` when `ApplyNow`), reschedule `NextRun := now + Interval`. -/
def handleUpdateConfig (state : State) (data : UpdateConfigData)
    (now : Time) : State × List Effect × Option DomainErr :=
  match Normalize data.Config with
  | .error e => (state, [], some (.validation e))
  | .ok normalized =>
    let effects :=
      [Effect.saveConfig normalized] ++
        (if data.ApplyNow then
          [Effect.applyVolume normalized.TargetVolume]
        else [])
    (⟨normalized, now + normalized.Interval, none⟩, effects, none)

/-- `core.handleApplyOnce` (domain.go): a negative requested volume falls back
to the configured target; emit `ApplyVolume(volume)` then `SaveConfig` of
the optimistically updated config; `NextRun` is kept, `RunningSince` set. -/
def handleApplyOnce (state : State) (data : ApplyOnceData) (now : Time) :
    State × List Effect × Option DomainErr :=
  let volume := if data.Volume < 0 then state.Config.TargetVolume else data.Volume
  let newConfig := optimisticConfig state.Config now
  (⟨newConfig, state.NextRun, some now⟩,
   [Effect.applyVolume volume, Effect.saveConfig newConfig],
   none)

/-- `core.HandleEvent` (domain.go): dispatch on the event tag, failing the
type assertion on the payload when its shape does not match the tag. -/
def HandleEvent (state : State) (event : Event) (now : Time) :
    State × List Effect × Option DomainErr :=
  match event.type with
  | .tick => handleTick state now
  | .updateConfig =>
    match event.data with
    | .update d => handleUpdateConfig state d now
    | _ => (state, [], some .invalidUpdateConfigData)
  | .applyOnce =>
    match event.data with
    | .once d => handleApplyOnce state d now
    | _ => (state, [], some .invalidApplyOnceData)
  | .other s => (state, [], some (.unknownEventType s))

/-- `core.HandleEffectResult` (domain.go): success clears `RunningSince`;
failure records status `"error"` and the message, clears `RunningSince`,
and touches nothing else. -/
def HandleEffectResult (state : State) (effect : Effect)
    (err : Option String) : State :=
  match err with
  | none => { state with RunningSince := none }
  | some msg =>
    { state with
        Config := { state.Config with
                      LastApplyStatus := "error", LastError := msg }
        RunningSince := none }

/-- The mutable scheduling fields of `core.Manager` (manager.go): the config,
`nextRun`, and `runningSince` (a plain `time.Time`, zero when idle). -/
structure MState where
  cfg : Config
  nextRun : Time
  runningSince : Time
deriving Repr, DecidableEq

/-- The state mutation performed by `core.Manager.triggerApply` (manager.go):
before calling the applier it sets `nextRun := now + interval` and
`runningSince := now`; after the call it records success
(`"ok"`, clear error, `LastApplied := now`) or failure (`"error"`, message,
`LastApplied` untouched) and clears `runningSince`.  The applier call and
`store.Save` are external I/O; `applyErr` is the applier's result. -/
def Manager.triggerApply (m : MState) (now : Time)
    (applyErr : Option String) : MState :=
  let rescheduled : MState := { m with nextRun := now + m.cfg.Interval, runningSince := now }
  let cfg2 :=
    match applyErr with
    | some msg =>
      { rescheduled.cfg with LastApplyStatus := "error", LastError := msg }
    | none =>
      { rescheduled.cfg with
          LastApplyStatus := "ok", LastError := "", LastApplied := now }
  { cfg := cfg2, nextRun := rescheduled.nextRun, runningSince := 0 }

/-- The defaulting `config.FileStore.Load` applies after unmarshalling
(config/config.go lines 90–97): a non-positive interval becomes
`DefaultInterval`, a non-positive target volume becomes `DefaultVolume`. -/
def FileStore.loadDefaults (cfg : Config) : Config :=
  let cfg1 := if cfg.Interval ≤ 0 then { cfg with Interval := DefaultInterval } else cfg
  if cfg1.TargetVolume ≤ 0 then { cfg1 with TargetVolume := DefaultVolume } else cfg1

/-- `config.FileStore.Save` marshals every field of the record to JSON and
`Load` unmarshals them back; the (de)serialization round-trip is the
identity on the record, so `Save` is modelled as the record itself. -/
def FileStore.Save (cfg : Config) : Config := cfg

/-- `config.FileStore.Load` on an existing file: unmarshal the stored record,
then apply the defaulting of lines 90–97. -/
def FileStore.Load (stored : Config) : Config := FileStore.loadDefaults stored

/-- The defaulting `repository.FileRepository.Load` applies to the domain
config after unmarshalling: non-positive target volume becomes 50,
non-positive interval becomes 90 seconds. -/
def FileRepository.loadDefaults (c : DConfig) : DConfig :=
  let c1 := if c.TargetVolume ≤ 0 then { c with TargetVolume := 50 } else c
  if c1.Interval ≤ 0 then { c1 with Interval := 90 * secondNS } else c1

/-- Whether an effect is an `EffectApplyVolume`. -/
def Effect.isApply : Effect → Bool
  | .applyVolume _ => true
  | .saveConfig _ => false

/-- Iterate `handleTick` over a list of tick instants, collecting every
effect emitted along the way. -/
def runTicks (s : State) : List Time → State × List Effect
  | [] => (s, [])
  | t :: rest =>
    let step := handleTick s t
    let tail := runTicks step.1 rest
    (tail.1, step.2.1 ++ tail.2)

/-- The freshly-defaulted startup state: default config, nothing scheduled,
not running. -/
def s0 : State := ⟨DefaultConfig, 0, none⟩

/-- An update request whose target volume 130 is out of range. -/
def badUpdate : UpdateConfigData :=
  ⟨{ DefaultConfig with TargetVolume := 130 }, false⟩

/-- C4: an `UpdateConfig` event whose new configuration fails `Normalize`
returns the validation error, produces zero effects, and leaves the state
exactly unchanged. -/
theorem C4_update_invalid_rejected (s : State) (d : UpdateConfigData)
    (now : Time) (e : NormalizeErr) (h : Normalize d.Config = .error e) :
    HandleEvent s ⟨.updateConfig, .update d⟩ now =
      (s, [], some (.validation e)) := by
  simp [HandleEvent, handleUpdateConfig, h]

/-- Witness for C4 at target volume 130: `Normalize` fails with the
out-of-range error, the state comes back untouched with no effects. -/
theorem C4_update_invalid_rejected_witness :
    Normalize badUpdate.Config = .error .outOfRangeValue ∧
      HandleEvent s0 ⟨.updateConfig, .update badUpdate⟩ 0 =
        (s0, [], some (.validation .outOfRangeValue)) :=
  ⟨by rfl, C4_update_invalid_rejected s0 badUpdate 0 .outOfRangeValue (by rfl)⟩

/-- C7: on a legal interval (at least the 5-second floor `Normalize`
enforces), `Normalize` fails with the out-of-range error exactly when the
target volume lies outside `[0,100]`, succeeds returning the configuration
unchanged on every volume in `[0,100]`, and is idempotent on every accepted
input. -/
theorem C7_normalize_range (cfg : Config) (hI : 5 * secondNS ≤ cfg.Interval) :
    (Normalize cfg = .error .outOfRangeValue ↔
        (cfg.TargetVolume < 0 ∨ cfg.TargetVolume > 100))
  ∧ ((0 ≤ cfg.TargetVolume ∧ cfg.TargetVolume ≤ 100) → Normalize cfg = .ok cfg)
  ∧ (∀ c, Normalize cfg = .ok c → Normalize c = .ok c) := by
  have hI' : ¬ cfg.Interval < 5 * secondNS := not_lt.mpr hI
  refine ⟨?_, ?_, ?_⟩
  · unfold Normalize
    split_ifs with h1
    · simp [h1]
    · simp [h1]
  · intro hv
    unfold Normalize
    rw [if_neg (by omega), if_neg hI']
  · intro c hc
    unfold Normalize at hc
    split_ifs at hc with h1
    injection hc with h
    subst h
    unfold Normalize
    rw [if_neg h1, if_neg hI']

/-- Witness for C7 at the default configuration: its 90-second interval is
legal and `Normalize` accepts it unchanged. -/
theorem C7_normalize_range_witness :
    5 * secondNS ≤ DefaultConfig.Interval ∧
      Normalize DefaultConfig = .ok DefaultConfig :=
  ⟨by decide,
   (C7_normalize_range DefaultConfig (by decide)).2.1 (by decide)⟩

/-- An event whose tag is none of the three known ones. -/
def bogusEvent : Event := ⟨.other "bogus", .nodata⟩

/-- C10: an event whose tag is unknown, or whose payload does not have the
shape its tag requires, leaves the state unchanged, emits no effects, and
returns an error. -/
theorem C10_bad_event_is_noop_error (s : State) (ev : Event) (now : Time)
    (h : (∃ str, ev.type = .other str) ∨
         (ev.type = .updateConfig ∧ ∀ d, ev.data ≠ .update d) ∨
         (ev.type = .applyOnce ∧ ∀ d, ev.data ≠ .once d)) :
    (HandleEvent s ev now).1 = s ∧ (HandleEvent s ev now).2.1 = [] ∧
      (HandleEvent s ev now).2.2.isSome = true := by
  obtain ⟨ty, dt⟩ := ev
  rcases h with ⟨str, hty⟩ | ⟨hty, hd⟩ | ⟨hty, hd⟩ <;>
    simp only at hty <;> subst hty
  · exact ⟨rfl, rfl, rfl⟩
  · cases dt with
    | update d => exact absurd rfl (hd d)
    | nodata => exact ⟨rfl, rfl, rfl⟩
    | once d => exact ⟨rfl, rfl, rfl⟩
    | unrelated => exact ⟨rfl, rfl, rfl⟩
  · cases dt with
    | once d => exact absurd rfl (hd d)
    | nodata => exact ⟨rfl, rfl, rfl⟩
    | update d => exact ⟨rfl, rfl, rfl⟩
    | unrelated => exact ⟨rfl, rfl, rfl⟩

/-- Witness for C10 at an unknown event tag. -/
theorem C10_bad_event_is_noop_error_witness :
    (HandleEvent s0 bogusEvent 0).1 = s0 ∧
      (HandleEvent s0 bogusEvent 0).2.1 = [] ∧
      (HandleEvent s0 bogusEvent 0).2.2.isSome = true :=
  C10_bad_event_is_noop_error s0 bogusEvent 0 (Or.inl ⟨"bogus", rfl⟩)

/-- An enabled state whose next run is scheduled exactly at instant 100. -/
def tickBoundaryState : State := ⟨DefaultConfig, 100, none⟩

/-- C1 counterexample: at `now = nextRunAt` (here both 100, with the schedule
set and the config enabled) the claim says the tick fires, but
`handleTick` uses the strict `now.After(NextRun)` and is a no-op there. -/
theorem C1_counterexample_boundary_tick :
    tickBoundaryState.Config.Enabled = true ∧
      tickBoundaryState.NextRun ≠ 0 ∧
      tickBoundaryState.NextRun ≤ 100 ∧
      handleTick tickBoundaryState 100 = (tickBoundaryState, [], none) := by
  refine ⟨rfl, by decide, by decide, ?_⟩
  rfl

/-- C1 (amended: the tick fires when `nextRunAt` is unset or `now` is
strictly after it, not at `now = nextRunAt`): on an enabled state the tick
emits exactly `ApplyValue(targetValue)` then `PersistState` and reschedules
`nextRunAt := now + interval` with `isRunning := true` precisely when
`NextRun` is unset or `now > NextRun`, and is otherwise a no-op; and the
spec scenario at `t0` from `{targetValue=50, interval=90s, enabled,
nextRunAt unset}` produces those effects, `nextRunAt = t0+90s`,
`isRunning = true`, and folding a successful apply leaves
`lastOutcome = ok`, `lastAppliedAt = t0`, `isRunning = false`. -/
theorem C1_tick_fires_iff_due (s : State) (now t0 : Time)
    (hen : s.Config.Enabled = true) :
    ((s.NextRun = 0 ∨ now > s.NextRun) →
      handleTick s now =
        (⟨optimisticConfig s.Config now, now + s.Config.Interval, some now⟩,
         [Effect.applyVolume s.Config.TargetVolume,
          Effect.saveConfig (optimisticConfig s.Config now)], none))
  ∧ (¬ (s.NextRun = 0 ∨ now > s.NextRun) →
      handleTick s now = (s, [], none))
  ∧ (let scen : State := ⟨⟨50, 90 * secondNS, true, 0, "never", ""⟩, 0, none⟩
     let step := handleTick scen t0
     step.2.1 = [Effect.applyVolume 50,
                 Effect.saveConfig (optimisticConfig scen.Config t0)] ∧
     step.1.NextRun = t0 + 90 * secondNS ∧
     step.1.RunningSince = some t0 ∧
     (HandleEffectResult step.1 (Effect.applyVolume 50) none).Config.LastApplyStatus = "ok" ∧
     (HandleEffectResult step.1 (Effect.applyVolume 50) none).Config.LastApplied = t0 ∧
     (HandleEffectResult step.1 (Effect.applyVolume 50) none).RunningSince = none) := by
  have hen' : ¬ s.Config.Enabled = false := by simp [hen]
  refine ⟨?_, ?_, ?_⟩
  · intro h
    unfold handleTick
    rw [if_neg hen', if_neg (fun hc => h.elim hc.2 hc.1)]
    rfl
  · intro h
    unfold handleTick
    rw [if_neg hen',
        if_pos ⟨fun hgt => h (Or.inr hgt), fun h0 => h (Or.inl h0)⟩]
  · simp [handleTick, HandleEffectResult, optimisticConfig]

/-- Witness for C1 at the startup state (schedule unset) and `now = 1`. -/
theorem C1_tick_fires_iff_due_witness :
    handleTick s0 1 =
      (⟨optimisticConfig s0.Config 1, 1 + s0.Config.Interval, some 1⟩,
       [Effect.applyVolume s0.Config.TargetVolume,
        Effect.saveConfig (optimisticConfig s0.Config 1)], none) :=
  (C1_tick_fires_iff_due s0 1 0 rfl).1 (Or.inl rfl)

/-- C5 counterexample: with configured target volume 50, an explicit request
of 150 — outside `[0,100]` — is applied as 150 rather than falling back to
the configured value. -/
theorem C5_counterexample_out_of_range_volume :
    s0.Config.TargetVolume = 50 ∧
      (handleApplyOnce s0 ⟨150⟩ 0).2.1.head? =
        some (.applyVolume 150) := by
  exact ⟨rfl, rfl⟩

/-- C5 (amended: the explicit value is used whenever it is non-negative —
there is no upper-range check — and a negative value falls back to the
configured target): `handleApplyOnce` emits `ApplyValue(value)` then
`PersistState` with that resolution, keeps `NextRun`, and sets
`isRunning := true`. -/
theorem C5_apply_once_resolution (s : State) (d : ApplyOnceData)
    (now : Time) :
    handleApplyOnce s d now =
      (⟨optimisticConfig s.Config now, s.NextRun, some now⟩,
       [Effect.applyVolume
          (if d.Volume < 0 then s.Config.TargetVolume else d.Volume),
        Effect.saveConfig (optimisticConfig s.Config now)],
       none) := rfl

/-- A manager state whose next run is scheduled at instant 7. -/
def mBefore : MState := ⟨DefaultConfig, 7, 0⟩

/-- C3 counterexample: `Manager.triggerApply` — the path every manual apply
goes through — overwrites `nextRun` with `now + interval`, so a manual
apply at instant 1000 reschedules the timer away from 7. -/
theorem C3_counterexample_manager_reschedules :
    (Manager.triggerApply mBefore 1000 none).nextRun ≠ mBefore.nextRun := by
  decide

/-- C3 (amended: the pure `handleApplyOnce` leaves `nextRunAt` untouched,
but the `Manager.triggerApply` path reschedules `nextRun := now + interval`
on a manual apply; the stored configuration's target volume is unchanged on
both paths). -/
theorem C3_manual_apply_frame (s : State) (d : ApplyOnceData) (now : Time)
    (m : MState) (applyErr : Option String) :
    (handleApplyOnce s d now).1.NextRun = s.NextRun ∧
      (handleApplyOnce s d now).1.Config.TargetVolume =
        s.Config.TargetVolume ∧
      (Manager.triggerApply m now applyErr).cfg.TargetVolume =
        m.cfg.TargetVolume ∧
      (Manager.triggerApply m now applyErr).nextRun = now + m.cfg.Interval := by
  refine ⟨rfl, rfl, ?_, ?_⟩ <;> cases applyErr <;> rfl

/-- A state whose last apply succeeded at instant 5, enabled, schedule
unset. -/
def lastSuccessState : State :=
  ⟨{ DefaultConfig with LastApplied := 5, LastApplyStatus := "ok" }, 0, none⟩

/-- C2 counterexample: on a timer tick at instant 42 from a state whose last
success was at instant 5, `handleTick` optimistically overwrites
`LastApplied := 42` before the apply runs, so after folding a failed apply
the previous successful timestamp 5 is gone. -/
theorem C2_counterexample_tick_overwrites_last_applied :
    lastSuccessState.Config.LastApplied = 5 ∧
      (HandleEffectResult (handleTick lastSuccessState 42).1
          (Effect.applyVolume 50) (some "apply failed")).Config.LastApplied
        = 42 := by
  exact ⟨rfl, rfl⟩

/-- C2 (amended: `HandleEffectResult` on a failed apply sets status
`"error"`, records the message, clears `RunningSince`, and leaves
`LastApplied` equal to its input state's — and `Manager.triggerApply` also
preserves `LastApplied` on failure — but on the timer-tick path the tick
transition itself already stamped `LastApplied := now`, so the previous
successful timestamp is not preserved end-to-end there). -/
theorem C2_fold_failure (s : State) (e : Effect) (msg : String) (now : Time)
    (hen : s.Config.Enabled = true) (hdue : s.NextRun = 0 ∨ now > s.NextRun) :
    (HandleEffectResult s e (some msg)).Config.LastApplyStatus = "error" ∧
      (HandleEffectResult s e (some msg)).Config.LastError = msg ∧
      (HandleEffectResult s e (some msg)).RunningSince = none ∧
      (HandleEffectResult s e (some msg)).Config.LastApplied =
        s.Config.LastApplied ∧
      (Manager.triggerApply ⟨s.Config, s.NextRun, 0⟩ now (some msg)).cfg.LastApplied =
        s.Config.LastApplied ∧
      (HandleEffectResult (handleTick s now).1 e (some msg)).Config.LastApplied
        = now := by
  refine ⟨rfl, rfl, rfl, rfl, rfl, ?_⟩
  have hen' : ¬ s.Config.Enabled = false := by simp [hen]
  unfold handleTick
  rw [if_neg hen', if_neg (fun hc => hdue.elim hc.2 hc.1)]
  rfl

/-- Witness for C2 at the startup state (enabled, schedule unset), tick at
instant 1, message "boom". -/
theorem C2_fold_failure_witness :
    (HandleEffectResult s0 (Effect.applyVolume 50) (some "boom")).Config.LastApplyStatus = "error" ∧
      (HandleEffectResult s0 (Effect.applyVolume 50) (some "boom")).Config.LastError = "boom" ∧
      (HandleEffectResult s0 (Effect.applyVolume 50) (some "boom")).RunningSince = none ∧
      (HandleEffectResult s0 (Effect.applyVolume 50) (some "boom")).Config.LastApplied =
        s0.Config.LastApplied ∧
      (Manager.triggerApply ⟨s0.Config, s0.NextRun, 0⟩ 1 (some "boom")).cfg.LastApplied =
        s0.Config.LastApplied ∧
      (HandleEffectResult (handleTick s0 1).1 (Effect.applyVolume 50) (some "boom")).Config.LastApplied
        = 1 :=
  C2_fold_failure s0 (Effect.applyVolume 50) "boom" 1 rfl (Or.inl rfl)

/-- A disabled tick rewrites the state to "nothing scheduled, not running"
and emits no effects (internal/core/domain.go lines 35–40). -/
theorem disabled_tick_shape (s : State) (t : Time)
    (h : s.Config.Enabled = false) :
    handleTick s t = ({ s with NextRun := 0, RunningSince := none }, [], none) := by
  unfold handleTick
  rw [if_pos h]

/-- C6: with the configuration disabled, any sequence of ticks emits no
effects at all (in particular never an `ApplyValue`), each disabled tick
clears `NextRun` and `RunningSince`, and a manual `ApplyOnce` still emits an
`ApplyValue` effect. -/
theorem C6_disabled_suppresses_ticks (s : State) (ts : List Time)
    (d : ApplyOnceData) (now : Time) (h : s.Config.Enabled = false) :
    (runTicks s ts).2 = [] ∧
      (∀ t, (handleTick s t).1.NextRun = 0 ∧
        (handleTick s t).1.RunningSince = none ∧
        (handleTick s t).2.1 = []) ∧
      (∃ v, (handleApplyOnce s d now).2.1.head? =
        some (.applyVolume v)) := by
  refine ⟨?_, ?_, ?_⟩
  · induction ts generalizing s with
    | nil => rfl
    | cons t rest ih =>
      show (runTicks s (t :: rest)).2 = []
      unfold runTicks
      rw [disabled_tick_shape s t h]
      simpa using ih { s with NextRun := 0, RunningSince := none } h
  · intro t
    rw [disabled_tick_shape s t h]
    exact ⟨rfl, rfl, rfl⟩
  · exact ⟨_, rfl⟩

/-- A disabled configuration state, scheduled at 50 for contrast. -/
def disabledState : State :=
  ⟨{ DefaultConfig with Enabled := false }, 50, none⟩

/-- Witness for C6 on a disabled state across three ticks. -/
theorem C6_disabled_suppresses_ticks_witness :
    (runTicks disabledState [1, 2, 3]).2 = [] ∧
      (∀ t, (handleTick disabledState t).1.NextRun = 0 ∧
        (handleTick disabledState t).1.RunningSince = none ∧
        (handleTick disabledState t).2.1 = []) ∧
      (∃ v, (handleApplyOnce disabledState ⟨-1⟩ 9).2.1.head? =
        some (.applyVolume v)) :=
  C6_disabled_suppresses_ticks disabledState [1, 2, 3] ⟨-1⟩ 9 rfl

/-- A two-second interval: above the 1-second floor the claim names, below
the 5-second floor `Normalize` enforces. -/
def twoSecondConfig : Config := { DefaultConfig with Interval := 2 * secondNS }

/-- C8 counterexample: a configuration with target volume 50 and a 2-second
interval — at least 1 second, so accepted per the claim — is rejected by
`Normalize` as too short. -/
theorem C8_counterexample_two_second_interval :
    secondNS ≤ twoSecondConfig.Interval ∧
      0 ≤ twoSecondConfig.TargetVolume ∧
      twoSecondConfig.TargetVolume ≤ 100 ∧
      Normalize twoSecondConfig = .error .intervalTooShort := by
  refine ⟨by decide, by decide, by decide, rfl⟩

/-- C8 (amended: `config.Normalize` enforces a 5-second floor — it fails
with the interval error exactly when the interval is below 5 seconds and
accepts every in-range-volume configuration with interval ≥ 5s unchanged;
the 1-second floor belongs to the separate `domain.Config.Validate`, which
fails exactly below 1 second and accepts at or above it). -/
theorem C8_interval_floor (cfg : Config) (c : DConfig)
    (hv : 0 ≤ cfg.TargetVolume ∧ cfg.TargetVolume ≤ 100)
    (hv2 : 0 ≤ c.TargetVolume ∧ c.TargetVolume ≤ 100) :
    (Normalize cfg = .error .intervalTooShort ↔ cfg.Interval < 5 * secondNS)
  ∧ (5 * secondNS ≤ cfg.Interval → Normalize cfg = .ok cfg)
  ∧ (DConfig.Validate c = some .ErrInvalidInterval ↔ c.Interval < secondNS)
  ∧ (secondNS ≤ c.Interval → DConfig.Validate c = none) := by
  have hcv : ¬ (cfg.TargetVolume < 0 ∨ cfg.TargetVolume > 100) := by omega
  have hcv2 : ¬ (c.TargetVolume < 0 ∨ c.TargetVolume > 100) := by omega
  refine ⟨?_, ?_, ?_, ?_⟩
  · unfold Normalize
    rw [if_neg hcv]
    split_ifs with h2
    · simp [h2]
    · simp [h2]
  · intro hI
    unfold Normalize
    rw [if_neg hcv, if_neg (not_lt.mpr hI)]
  · unfold DConfig.Validate
    rw [if_neg hcv2]
    split_ifs with h2
    · simp [h2]
    · simp [h2]
  · intro hI
    unfold DConfig.Validate
    rw [if_neg hcv2, if_neg (not_lt.mpr hI)]

/-- Witness for C8: the default config passes `Normalize`; its `DConfig`
counterpart with a 1-second interval passes `Validate`. -/
theorem C8_interval_floor_witness :
    Normalize DefaultConfig = .ok DefaultConfig ∧
      DConfig.Validate ⟨50, secondNS, true⟩ = none :=
  ⟨(C8_interval_floor DefaultConfig ⟨50, secondNS, true⟩
      (by decide) (by decide)).2.1 (by decide),
   (C8_interval_floor DefaultConfig ⟨50, secondNS, true⟩
      (by decide) (by decide)).2.2.2 (by decide)⟩

/-- C9: reading back a persisted record replaces a non-positive stored
target volume — including the legal value 0 — with the default 50, and a
non-positive stored interval with the default 90 seconds, in both
`FileStore.Load` and `FileRepository.Load`; consequently a configuration
with target volume 0 does not survive a `Save`/`Load` round trip. -/
theorem C9_load_defaulting (cfg : Config) (c : DConfig) :
    (cfg.TargetVolume ≤ 0 →
      (FileStore.Load (FileStore.Save cfg)).TargetVolume = DefaultVolume)
  ∧ (cfg.Interval ≤ 0 →
      (FileStore.Load (FileStore.Save cfg)).Interval = DefaultInterval)
  ∧ (c.TargetVolume ≤ 0 → (FileRepository.loadDefaults c).TargetVolume = 50)
  ∧ (c.Interval ≤ 0 →
      (FileRepository.loadDefaults c).Interval = 90 * secondNS)
  ∧ FileStore.Load (FileStore.Save { DefaultConfig with TargetVolume := 0 })
      ≠ { DefaultConfig with TargetVolume := 0 } := by
  refine ⟨?_, ?_, ?_, ?_, by decide⟩ <;> intro h <;>
    simp only [FileStore.Load, FileStore.Save, FileStore.loadDefaults,
      FileRepository.loadDefaults] <;>
    split_ifs <;> simp_all

/-- Witness for C9 at stored target volume 0: read-back yields 50. -/
theorem C9_load_defaulting_witness :
    ({ DefaultConfig with TargetVolume := 0 } : Config).TargetVolume ≤ 0 ∧
      (FileStore.Load (FileStore.Save
          { DefaultConfig with TargetVolume := 0 })).TargetVolume =
        DefaultVolume :=
  ⟨by decide,
   (C9_load_defaulting { DefaultConfig with TargetVolume := 0 }
      ⟨0, 0, true⟩).1 (by decide)⟩

end MicGain
